import Mathlib

/-!
Verification of the frequency-normalization / cohort-comparison / baseline-aggregation
pipeline of a cytometry dashboard (`analysis.py` of the repository).

The pipeline operates on pandas DataFrames.  We embed a DataFrame shallowly as a
list of column names together with rows represented as association lists from
column name to cell value.  Cell values are strings, exact rationals (standing
for the numeric cells; the float arithmetic performed by the code on them is
ratios of counts, rendered exactly here), NaN (`Value.na`) and the two
infinities that pandas produces when dividing a nonzero float by zero.
-/

/-- A cell of a pandas DataFrame: a string, a (rational-valued) number, NaN,
or one of the two float infinities (which arise only as division results). -/
inductive Value where
  | na : Value
  | str : String → Value
  | num : ℚ → Value
  | posInf : Value
  | negInf : Value
deriving DecidableEq, Repr

/-- A DataFrame row: an association list from column name to cell value. -/
abbrev Row := List (String × Value)

/-- A pandas DataFrame: ordered column names plus rows.  Each row is expected to
carry exactly the columns of `cols`; the operations below look cells up by name. -/
structure DF where
  cols : List String
  rows : List Row
deriving DecidableEq, Repr

/-- The completely empty DataFrame, `pd.DataFrame()`. -/
def DF.empty : DF := { cols := [], rows := [] }

/-- Cell access `row[c]`.  A missing entry reads as NaN (pandas would raise for a
missing *column*; the definitions below check column presence separately where
the code's behaviour depends on it). -/
def getVal (r : Row) (c : String) : Value := (r.lookup c).getD Value.na

/-- `analysis.py` line 205: the fixed, closed list of population-count columns. -/
def cell_populations_list : List String :=
  ["b_cell", "cd8_t_cell", "cd4_t_cell", "nk_cell", "monocyte"]

/-- `pd.to_numeric(x, errors='coerce').fillna(0)` applied to one cell
(`analysis.py` line 219): a numeric cell keeps its value, everything else
(NaN, non-numeric strings) is coerced to NaN and then filled with 0. -/
def coerceNum : Value → ℚ
  | Value.num q => q
  | _ => 0

/-- Float division of pandas Series: `a / 0` is NaN when `a = 0` and a signed
infinity otherwise; no exception is ever raised. -/
def pandasDiv (a b : ℚ) : Value :=
  if b = 0 then
    if a = 0 then Value.na else if 0 < a then Value.posInf else Value.negInf
  else Value.num (a / b)

/-- Multiplication of a Series cell by the scalar 100 (`* 100` on line 230);
NaN and the infinities absorb the multiplication. -/
def times100 : Value → Value
  | Value.num q => Value.num (q * 100)
  | v => v

/-- `df_long['response'].astype(str).replace({'nan': None, '': None})`
(`analysis.py` line 234): NaN prints as `'nan'` and is replaced back to null,
the empty string likewise; other strings are unchanged, numbers are stringified. -/
def responseClean : Value → Value
  | Value.na => Value.na
  | Value.str "" => Value.na
  | Value.str "nan" => Value.na
  | Value.str s => Value.str s
  | Value.num q => Value.str (toString q)
  | Value.posInf => Value.str "inf"
  | Value.negInf => Value.str "-inf"

/-- `analysis.py` lines 239-243: the fixed output column order requested of the
normalizer; the final frame keeps exactly the columns of this list that exist. -/
def required_cols_order : List String :=
  ["sample", "total_count", "population", "count", "percentage",
   "project", "subject", "condition", "age", "sex", "treatment",
   "response", "sample_type", "time_from_treatment_start"]

/-- `id_vars` (line 208): every wide column that is not a population count. -/
def idVars (w : DF) : List String :=
  w.cols.filter (fun c => decide (c ∉ cell_populations_list))

/-- The melted value columns: the population-count columns present, in input
column order (pandas `melt` with unspecified `value_vars`). -/
def valueVars (w : DF) : List String :=
  w.cols.filter (fun c => decide (c ∈ cell_populations_list))

/-- One row of the melted long frame, with the `count` cell already passed
through `pd.to_numeric(errors='coerce').fillna(0)` (line 219). -/
structure MeltRow where
  ids : Row
  population : String
  count : ℚ
deriving DecidableEq, Repr

/-- The id-column part of a melted row: the id columns with the cells of the
source wide row. -/
def idRow (w : DF) (r : Row) : Row := (idVars w).map (fun c => (c, getVal r c))

/-- `data_df_wide.melt(id_vars=id_vars, var_name='population', value_name='count')`
(lines 212-216) followed by the numeric coercion of the `count` column:
one output row per (population column, input row) pair, stacked per column. -/
def meltRows (w : DF) : List MeltRow :=
  (valueVars w).flatMap (fun p =>
    w.rows.map (fun r =>
      { ids := idRow w r,
        population := p,
        count := coerceNum (getVal r p) }))

/-- `df_long.groupby('sample')['count'].sum()` evaluated at key `s`
(lines 222-224): the summed coerced count of all melted rows whose `sample`
cell equals `s`. -/
def totalOf (w : DF) (s : Value) : ℚ :=
  (((meltRows w).filter (fun m => decide (getVal m.ids "sample" = s))).map
    (fun m => m.count)).sum

/-- A row of the merged long frame: melt output plus the derived `total_count`
and `percentage` columns. -/
structure NormRow where
  ids : Row
  population : String
  count : ℚ
  total_count : ℚ
  percentage : Value
deriving DecidableEq, Repr

/-- Attach `total_count` (merge on `'sample'`, line 227) and compute
`percentage = (count / total_count) * 100` (line 230) for one melted row. -/
def mkNormRow (w : DF) (m : MeltRow) : NormRow :=
  { ids := m.ids, population := m.population, count := m.count,
    total_count := totalOf w (getVal m.ids "sample"),
    percentage := times100 (pandasDiv m.count (totalOf w (getVal m.ids "sample"))) }

/-- The merged long rows.  `groupby` drops NaN keys, so the inner merge on
`'sample'` (line 227) silently drops melted rows whose sample id is NaN. -/
def normRows (w : DF) : List NormRow :=
  ((meltRows w).filter (fun m => decide (getVal m.ids "sample" ≠ Value.na))).map
    (mkNormRow w)

/-- The columns of `df_long` after melt, merge and the `percentage` assignment. -/
def longCols (w : DF) : List String :=
  idVars w ++ ["population", "count", "total_count", "percentage"]

/-- `[col for col in required_cols_order if col in df_long.columns]` (line 246). -/
def outCols (w : DF) : List String :=
  required_cols_order.filter (fun c => decide (c ∈ longCols w))

/-- The cell of the final frame at column `c` for one merged row: the derived
columns take their computed values, `response` is normalized (line 234 applies
to the long frame before the final selection), every other metadata column is
carried from the melt ids. -/
def outVal (n : NormRow) (c : String) : Value :=
  if c = "population" then Value.str n.population
  else if c = "count" then Value.num n.count
  else if c = "total_count" then Value.num n.total_count
  else if c = "percentage" then n.percentage
  else if c = "response" then responseClean (getVal n.ids "response")
  else getVal n.ids c

/-- One row of the final frame: the selected columns with their cells. -/
def outRow (w : DF) (n : NormRow) : Row := (outCols w).map (fun c => (c, outVal n c))

/-- `get_relative_frequency(data_df_wide)` (`analysis.py` lines 186-248).
An empty input returns `pd.DataFrame()` (lines 201-203).  The `groupby('sample')`
on line 223 raises `KeyError` when the wide table has no `sample` column; that
failure is the `none` result.  Otherwise the melted, merged and reordered long
frame is returned. -/
def get_relative_frequency (w : DF) : Option DF :=
  if w.rows = [] ∨ w.cols = [] then some DF.empty
  else if "sample" ∈ w.cols then
    some { cols := outCols w, rows := (normRows w).map (outRow w) }
  else none

/-- The normalizer's output frame (the empty frame when it failed). -/
def grfOut (w : DF) : DF := (get_relative_frequency w).getD DF.empty

/-- Read a numeric cell back as a rational (0 for anything non-numeric). -/
def valToQ : Value → ℚ
  | Value.num q => q
  | _ => 0

/-- The sum of the `percentage` column over the output rows of one sample. -/
def percSum (out : DF) (s : Value) : ℚ :=
  ((out.rows.filter (fun r => decide (getVal r "sample" = s))).map
    (fun r => valToQ (getVal r "percentage"))).sum

-- concrete tables for witnesses and counterexamples
def wideSimple : DF :=
  { cols := ["sample", "condition", "b_cell", "cd8_t_cell", "cd4_t_cell", "nk_cell", "monocyte"],
    rows := [
      [("sample", Value.str "s1"), ("condition", Value.str "melanoma"),
       ("b_cell", Value.num 10), ("cd8_t_cell", Value.num 20), ("cd4_t_cell", Value.num 30),
       ("nk_cell", Value.num 25), ("monocyte", Value.num 15)],
      [("sample", Value.str "s2"), ("condition", Value.str "healthy"),
       ("b_cell", Value.num 1), ("cd8_t_cell", Value.num 1), ("cd4_t_cell", Value.num 1),
       ("nk_cell", Value.num 1), ("monocyte", Value.num 0)]] }

/-! ## Cohort Comparator (`analyze_melanoma_tr1_response`, lines 250-316) -/

/-- The midrank of the value `v` within the pooled sample `c`: ties receive the
average of the rank positions they occupy. -/
def midrank (c : Multiset ℚ) (v : ℚ) : ℚ :=
  ((c.filter (fun w => w < v)).card : ℚ) + (((c.filter (fun w => w = v)).card : ℚ) + 1) / 2

/-- The Mann-Whitney U statistic of a group `g` of size-parameter `n1` inside
the pooled sample: `U = R - n1*(n1+1)/2` with `R` the midrank sum of `g`. -/
def uStat (n1 : ℕ) (pooled : Multiset ℚ) (g : Multiset ℚ) : ℚ :=
  (g.map (midrank pooled)).sum - (n1 : ℚ) * ((n1 : ℚ) + 1) / 2

/-- The U statistic that `scipy.stats.mannwhitneyu(x, y, alternative='two-sided')`
returns: the U of the first argument, computed with midranks. -/
def mannwhitneyuStat (x y : List ℚ) : ℚ :=
  uStat x.length ((x : Multiset ℚ) + (y : Multiset ℚ)) (x : Multiset ℚ)

/-- The two-sided p-value of `scipy.stats.mannwhitneyu(x, y)`.  scipy computes it
from the U value and the pooled sample only (exactly, from the permutation
distribution of U, for small untied samples; by a normal approximation with tie
correction otherwise).  We model it by the exact permutation distribution of the
midrank U statistic: the model agrees with scipy's exact method and shares with
its asymptotic method the property every claim here uses, namely that the result
is a function of the two unordered samples alone. -/
def mannwhitneyuPValue (x y : List ℚ) : ℚ :=
  let pooled : Multiset ℚ := (x : Multiset ℚ) + (y : Multiset ℚ)
  let u := mannwhitneyuStat x y
  let us := (pooled.powersetCard x.length).map (uStat x.length pooled)
  let lo := (us.filter (fun z => z ≤ u)).card
  let hi := (us.filter (fun z => u ≤ z)).card
  min 1 (2 * ((min lo hi : ℕ) : ℚ) / (us.card : ℚ))

/-- One entry of the `statistical_results` dict (lines 294-298 and 309-313):
either a computed test (`statistic`/`p_value` present, `significant := p < 0.05`)
or the insufficient-data marker `{'statistic': None, 'p_value': None,
'significant': False}`. -/
structure StatResult where
  statistic : Option ℚ
  p_value : Option ℚ
  significant : Bool
deriving DecidableEq, Repr

/-- Lines 290-313: run the test only when both groups have more than one value
(`len(responder_values) > 1 and len(non_responder_values) > 1`); otherwise record
the insufficient-data marker. -/
def runTest (x y : List ℚ) : StatResult :=
  if 1 < x.length ∧ 1 < y.length then
    { statistic := some (mannwhitneyuStat x y),
      p_value := some (mannwhitneyuPValue x y),
      significant := decide (mannwhitneyuPValue x y < (0.05 : ℚ)) }
  else { statistic := none, p_value := none, significant := false }

/-- The cohort boolean mask of lines 267-272: melanoma, tr1, PBMC, response in
`['y', 'n']`. -/
def cohortMask (r : Row) : Bool :=
  decide (getVal r "condition" = Value.str "melanoma") &&
  decide (getVal r "treatment" = Value.str "tr1") &&
  decide (getVal r "sample_type" = Value.str "PBMC") &&
  decide (getVal r "response" ∈ [Value.str "y", Value.str "n"])

/-- `filtered_df` (lines 267-272): the long rows passing the cohort mask. -/
def cohortRows (df : DF) : List Row := df.rows.filter cohortMask

/-- `responders = filtered_df[filtered_df['response'] == 'y']` (line 279). -/
def responders (df : DF) : List Row :=
  (cohortRows df).filter (fun r => decide (getVal r "response" = Value.str "y"))

/-- `non_responders` (line 280). -/
def non_responders (df : DF) : List Row :=
  (cohortRows df).filter (fun r => decide (getVal r "response" = Value.str "n"))

/-- `.dropna()` on the `percentage` column: keep the finite numeric cells.
(pandas `dropna` keeps infinities; they can only appear here for a sample with
negative counts summing to zero, which the data model excludes.) -/
def percOf (r : Row) : Option ℚ :=
  match getVal r "percentage" with
  | Value.num q => some q
  | _ => none

/-- `responders[responders['population'] == pop]['percentage'].dropna()` (line 287). -/
def responderValues (df : DF) (pop : String) : List ℚ :=
  ((responders df).filter (fun r => decide (getVal r "population" = Value.str pop))).filterMap percOf

/-- Line 288, the non-responder group of one population. -/
def nonResponderValues (df : DF) (pop : String) : List ℚ :=
  ((non_responders df).filter (fun r => decide (getVal r "population" = Value.str pop))).filterMap percOf

/-- `analyze_melanoma_tr1_response(data_df)` (lines 250-316): filter the cohort;
an empty cohort returns `(pd.DataFrame(), {})` (lines 274-276); otherwise run
(or skip) the Mann-Whitney U test for each of the five fixed populations in
order, building the results dict. -/
def analyze_melanoma_tr1_response (df : DF) : DF × List (String × StatResult) :=
  if cohortRows df = [] then (DF.empty, [])
  else ({ cols := df.cols, rows := cohortRows df },
        cell_populations_list.map (fun pop =>
          (pop, runTest (responderValues df pop) (nonResponderValues df pop))))

/-! ## Baseline Aggregator (`query_baseline_melanoma_tr1_samples`, lines 318-380) -/

/-- The baseline boolean mask of lines 335-340: melanoma, PBMC, baseline
(`time_from_treatment_start == 0`), treatment tr1. -/
def baselineMask (r : Row) : Bool :=
  decide (getVal r "condition" = Value.str "melanoma") &&
  decide (getVal r "sample_type" = Value.str "PBMC") &&
  decide (getVal r "time_from_treatment_start" = Value.num 0) &&
  decide (getVal r "treatment" = Value.str "tr1")

/-- `baseline_samples` (lines 335-340): the wide rows passing the baseline mask. -/
def baselineRows (df : DF) : List Row := df.rows.filter baselineMask

/-- `drop_duplicates(subset=['subject'])` (line 347) with an explicit seen-set:
keep each row whose `subject` value has not occurred before (pandas
`keep='first'`). -/
def dropDupSubjectSeen (seen : List Value) : List Row → List Row
  | [] => []
  | r :: rest =>
    if getVal r "subject" ∈ seen then dropDupSubjectSeen seen rest
    else r :: dropDupSubjectSeen (getVal r "subject" :: seen) rest

/-- `unique_subjects_baseline = baseline_samples.drop_duplicates(subset=['subject'])`. -/
def unique_subjects_baseline (bs : List Row) : List Row := dropDupSubjectSeen [] bs

/-- `['y', 'n']` as cell values, for the response restriction of line 356. -/
def ynVals : List Value := [Value.str "y", Value.str "n"]

/-- The three tally tables of lines 350-362, each modelled by its counting
function (key to count), which determines the pandas table up to row order. -/
structure BaselineAgg where
  samples_per_project : Value → ℕ
  subject_response_counts : Value → ℕ
  subject_sex_counts : Value → ℕ

/-- Build `aggregated_counts` (lines 350-368) from the baseline rows:
`samples_per_project` counts distinct `sample` values per `project` over the
non-deduplicated baseline rows; the two subject tallies are value counts over
the subject-deduplicated rows, response restricted to `{'y','n'}`. -/
def mkAgg (bs : List Row) : BaselineAgg :=
  { samples_per_project := fun p =>
      (((bs.filter (fun r => decide (getVal r "project" = p))).map
        (fun r => getVal r "sample")).dedup).length,
    subject_response_counts := fun v =>
      (((unique_subjects_baseline bs).filter
          (fun r => decide (getVal r "response" ∈ ynVals))).map
        (fun r => getVal r "response")).countP (fun x => decide (x = v)),
    subject_sex_counts := fun v =>
      ((unique_subjects_baseline bs).map
        (fun r => getVal r "sex")).countP (fun x => decide (x = v)) }

/-- `query_baseline_melanoma_tr1_samples(data_df)` (lines 318-380): an empty
baseline subset returns `(pd.DataFrame(), {})` — the aggregate dict is empty,
it contains no tally tables (lines 342-344); otherwise the filtered frame and
the three tallies are returned. -/
def query_baseline_melanoma_tr1_samples (df : DF) : DF × Option BaselineAgg :=
  if baselineRows df = [] then (DF.empty, none)
  else ({ cols := df.cols, rows := baselineRows df }, some (mkAgg (baselineRows df)))

/-- `samples_per_project` looked up at a project key (0 when the aggregate dict
is the empty dict). -/
def samplesTally (df : DF) (p : Value) : ℕ :=
  match (query_baseline_melanoma_tr1_samples df).2 with
  | none => 0
  | some a => a.samples_per_project p

/-- `subject_response_counts` looked up at a response key. -/
def respTally (df : DF) (v : Value) : ℕ :=
  match (query_baseline_melanoma_tr1_samples df).2 with
  | none => 0
  | some a => a.subject_response_counts v

/-- `subject_sex_counts` looked up at a sex key. -/
def sexTally (df : DF) (v : Value) : ℕ :=
  match (query_baseline_melanoma_tr1_samples df).2 with
  | none => 0
  | some a => a.subject_sex_counts v

/-! Specification-side recount for the subject-level tallies: list each distinct
subject once and attribute it to its *first* baseline row. -/

/-- The distinct `subject` values of the rows, in order of first occurrence,
skipping an initial seen-set. -/
def distinctSubjectsSeen (seen : List Value) : List Row → List Value
  | [] => []
  | r :: rest =>
    if getVal r "subject" ∈ seen then distinctSubjectsSeen seen rest
    else getVal r "subject" :: distinctSubjectsSeen (getVal r "subject" :: seen) rest

/-- The distinct `subject` values of the baseline rows, first-occurrence order. -/
def distinctSubjects (bs : List Row) : List Value := distinctSubjectsSeen [] bs

/-- The first row of the given subject. -/
def firstSubjectRow (bs : List Row) (s : Value) : Option Row :=
  bs.find? (fun r => decide (getVal r "subject" = s))

/-- Count the distinct subjects whose first baseline row satisfies `φ`. -/
def countSubjectsFirst (bs : List Row) (φ : Row → Bool) : ℕ :=
  ((distinctSubjects bs).filter
    (fun s => ((firstSubjectRow bs s).map φ).getD false)).length

/-- Each subject counted once, by the `sex` of its first baseline row. -/
def sexCountFirst (df : DF) (v : Value) : ℕ :=
  countSubjectsFirst (baselineRows df) (fun r => decide (getVal r "sex" = v))

/-- Each subject counted once, by the `response` of its first baseline row,
restricted to responses in `{'y','n'}`. -/
def respCountFirst (df : DF) (v : Value) : ℕ :=
  countSubjectsFirst (baselineRows df)
    (fun r => decide (getVal r "response" = v) && decide (getVal r "response" ∈ ynVals))

/-! ## Further concrete tables for witnesses and counterexamples -/

/-- A wide table whose first sample has all population counts zero. -/
def wideZeroTotal : DF :=
  { cols := ["sample", "b_cell", "cd8_t_cell", "cd4_t_cell", "nk_cell", "monocyte"],
    rows := [
      [("sample", Value.str "s1"), ("b_cell", Value.num 0), ("cd8_t_cell", Value.num 0),
       ("cd4_t_cell", Value.num 0), ("nk_cell", Value.num 0), ("monocyte", Value.num 0)],
      [("sample", Value.str "s2"), ("b_cell", Value.num 1), ("cd8_t_cell", Value.num 1),
       ("cd4_t_cell", Value.num 1), ("nk_cell", Value.num 1), ("monocyte", Value.num 1)]] }

/-- A wide table carrying an extra metadata column outside the fixed lists. -/
def wideExtraCol : DF :=
  { cols := ["sample", "extra_meta", "b_cell"],
    rows := [
      [("sample", Value.str "s1"), ("extra_meta", Value.str "keep-me"),
       ("b_cell", Value.num 5)]] }

/-- A wide table from which the required count column `monocyte` (and three
others) is absent. -/
def wideMissingPop : DF :=
  { cols := ["sample", "b_cell"],
    rows := [[("sample", Value.str "s1"), ("b_cell", Value.num 5)]] }

/-- A long table none of whose rows passes the melanoma/tr1/PBMC/response
cohort filter. -/
def longNoCohort : DF :=
  { cols := ["condition", "treatment", "sample_type", "response", "population", "percentage"],
    rows := [
      [("condition", Value.str "healthy"), ("treatment", Value.str "tr1"),
       ("sample_type", Value.str "PBMC"), ("response", Value.str "y"),
       ("population", Value.str "b_cell"), ("percentage", Value.num 10)]] }

/-- A long table with a single cohort row: every population group has fewer
than two observations. -/
def longMarker : DF :=
  { cols := ["condition", "treatment", "sample_type", "response", "population", "percentage"],
    rows := [
      [("condition", Value.str "melanoma"), ("treatment", Value.str "tr1"),
       ("sample_type", Value.str "PBMC"), ("response", Value.str "y"),
       ("population", Value.str "b_cell"), ("percentage", Value.num 10)]] }

/-- A two-row long cohort table and `longPermB`, the same rows in the other order. -/
def longPermA : DF :=
  { cols := ["condition", "treatment", "sample_type", "response", "population", "percentage"],
    rows := [
      [("condition", Value.str "melanoma"), ("treatment", Value.str "tr1"),
       ("sample_type", Value.str "PBMC"), ("response", Value.str "y"),
       ("population", Value.str "b_cell"), ("percentage", Value.num 10)],
      [("condition", Value.str "melanoma"), ("treatment", Value.str "tr1"),
       ("sample_type", Value.str "PBMC"), ("response", Value.str "n"),
       ("population", Value.str "b_cell"), ("percentage", Value.num 20)]] }

/-- The rows of `longPermA`, permuted. -/
def longPermB : DF :=
  { cols := ["condition", "treatment", "sample_type", "response", "population", "percentage"],
    rows := [
      [("condition", Value.str "melanoma"), ("treatment", Value.str "tr1"),
       ("sample_type", Value.str "PBMC"), ("response", Value.str "n"),
       ("population", Value.str "b_cell"), ("percentage", Value.num 20)],
      [("condition", Value.str "melanoma"), ("treatment", Value.str "tr1"),
       ("sample_type", Value.str "PBMC"), ("response", Value.str "y"),
       ("population", Value.str "b_cell"), ("percentage", Value.num 10)]] }

/-- First baseline row of the duplicated subject `subj1` (sample `sA`). -/
def dupRow1 : Row :=
  [("sample", Value.str "sA"), ("subject", Value.str "subj1"), ("project", Value.str "P1"),
   ("condition", Value.str "melanoma"), ("sample_type", Value.str "PBMC"),
   ("time_from_treatment_start", Value.num 0), ("treatment", Value.str "tr1"),
   ("response", Value.str "y"), ("sex", Value.str "M")]

/-- Second baseline row of the duplicated subject `subj1` (sample `sB`). -/
def dupRow2 : Row :=
  [("sample", Value.str "sB"), ("subject", Value.str "subj1"), ("project", Value.str "P1"),
   ("condition", Value.str "melanoma"), ("sample_type", Value.str "PBMC"),
   ("time_from_treatment_start", Value.num 0), ("treatment", Value.str "tr1"),
   ("response", Value.str "y"), ("sex", Value.str "M")]

/-- A wide table where one subject contributes two baseline samples (distinct
sample ids, same project), agreeing on response and sex. -/
def wideDupSubject : DF :=
  { cols := ["sample", "subject", "project", "condition", "sample_type",
             "time_from_treatment_start", "treatment", "response", "sex"],
    rows := [dupRow1, dupRow2] }

/-- A wide table where one subject's two baseline rows disagree on response and
sex (first row: response y, sex M). -/
def baseDupA : DF :=
  { cols := ["sample", "subject", "project", "condition", "sample_type",
             "time_from_treatment_start", "treatment", "response", "sex"],
    rows := [
      [("sample", Value.str "sA"), ("subject", Value.str "subj1"), ("project", Value.str "P1"),
       ("condition", Value.str "melanoma"), ("sample_type", Value.str "PBMC"),
       ("time_from_treatment_start", Value.num 0), ("treatment", Value.str "tr1"),
       ("response", Value.str "y"), ("sex", Value.str "M")],
      [("sample", Value.str "sB"), ("subject", Value.str "subj1"), ("project", Value.str "P1"),
       ("condition", Value.str "melanoma"), ("sample_type", Value.str "PBMC"),
       ("time_from_treatment_start", Value.num 0), ("treatment", Value.str "tr1"),
       ("response", Value.str "n"), ("sex", Value.str "F")]] }

/-- The rows of `baseDupA`, permuted (second row first). -/
def baseDupB : DF :=
  { cols := ["sample", "subject", "project", "condition", "sample_type",
             "time_from_treatment_start", "treatment", "response", "sex"],
    rows := [
      [("sample", Value.str "sB"), ("subject", Value.str "subj1"), ("project", Value.str "P1"),
       ("condition", Value.str "melanoma"), ("sample_type", Value.str "PBMC"),
       ("time_from_treatment_start", Value.num 0), ("treatment", Value.str "tr1"),
       ("response", Value.str "n"), ("sex", Value.str "F")],
      [("sample", Value.str "sA"), ("subject", Value.str "subj1"), ("project", Value.str "P1"),
       ("condition", Value.str "melanoma"), ("sample_type", Value.str "PBMC"),
       ("time_from_treatment_start", Value.num 0), ("treatment", Value.str "tr1"),
       ("response", Value.str "y"), ("sex", Value.str "M")]] }

/-- A wide table with no row at the baseline filter (condition is not melanoma). -/
def wideNoBaseline : DF :=
  { cols := ["sample", "subject", "project", "condition", "sample_type",
             "time_from_treatment_start", "treatment", "response", "sex"],
    rows := [
      [("sample", Value.str "sA"), ("subject", Value.str "subj1"), ("project", Value.str "P1"),
       ("condition", Value.str "healthy"), ("sample_type", Value.str "PBMC"),
       ("time_from_treatment_start", Value.num 0), ("treatment", Value.str "tr1"),
       ("response", Value.str "y"), ("sex", Value.str "M")]] }

/-! ## Helper lemmas -/

theorem lookup_map_self {β : Type} (f : String → β) :
    ∀ (l : List String) (k : String), k ∈ l →
      (l.map (fun c => (c, f c))).lookup k = some (f k) := by
  intro l
  induction l with
  | nil => intro k hk; simp at hk
  | cons c t ih =>
    intro k hk
    by_cases h : k = c
    · subst h; simp [List.lookup]
    · have hkt : k ∈ t := by
        rcases List.mem_cons.mp hk with h1 | h1
        · exact absurd h1 h
        · exact h1
      simpa [List.lookup, beq_eq_false_iff_ne.mpr h] using ih k hkt

theorem getVal_map_self (f : String → Value) (l : List String) (k : String) (hk : k ∈ l) :
    getVal (l.map (fun c => (c, f c))) k = f k := by
  simp [getVal, lookup_map_self f l k hk]

theorem mem_idVars (w : DF) (c : String) :
    c ∈ idVars w ↔ c ∈ w.cols ∧ c ∉ cell_populations_list := by
  simp [idVars]

theorem mem_valueVars (w : DF) (c : String) :
    c ∈ valueVars w ↔ c ∈ w.cols ∧ c ∈ cell_populations_list := by
  simp [valueVars]

theorem getVal_idRow (w : DF) (r : Row) (c : String) (hc : c ∈ idVars w) :
    getVal (idRow w r) c = getVal r c :=
  getVal_map_self _ _ _ hc

theorem sample_mem_idVars (w : DF) (h : "sample" ∈ w.cols) : "sample" ∈ idVars w := by
  rw [mem_idVars]
  exact ⟨h, by decide⟩

theorem mem_longCols (w : DF) (c : String) :
    c ∈ longCols w ↔
      c ∈ idVars w ∨ c ∈ (["population", "count", "total_count", "percentage"] : List String) := by
  simp [longCols]

theorem mem_outCols (w : DF) (c : String) :
    c ∈ outCols w ↔ c ∈ required_cols_order ∧ c ∈ longCols w := by
  simp [outCols]

theorem percentage_mem_outCols (w : DF) : "percentage" ∈ outCols w := by
  rw [mem_outCols, mem_longCols]
  exact ⟨by decide, Or.inr (by decide)⟩

theorem population_mem_outCols (w : DF) : "population" ∈ outCols w := by
  rw [mem_outCols, mem_longCols]
  exact ⟨by decide, Or.inr (by decide)⟩

theorem count_mem_outCols (w : DF) : "count" ∈ outCols w := by
  rw [mem_outCols, mem_longCols]
  exact ⟨by decide, Or.inr (by decide)⟩

theorem sample_mem_outCols (w : DF) (h : "sample" ∈ w.cols) : "sample" ∈ outCols w := by
  rw [mem_outCols, mem_longCols]
  exact ⟨by decide, Or.inl (sample_mem_idVars w h)⟩

theorem getVal_outRow (w : DF) (n : NormRow) (c : String) (hc : c ∈ outCols w) :
    getVal (outRow w n) c = outVal n c :=
  getVal_map_self _ _ _ hc

theorem outVal_sample (n : NormRow) : outVal n "sample" = getVal n.ids "sample" := by
  simp [outVal]

theorem outVal_percentage (n : NormRow) : outVal n "percentage" = n.percentage := by
  simp [outVal]

theorem outVal_population (n : NormRow) : outVal n "population" = Value.str n.population := by
  simp [outVal]

theorem outVal_count (n : NormRow) : outVal n "count" = Value.num n.count := by
  simp [outVal]

theorem grf_eq_some (w : DF) (hrows : w.rows ≠ []) (hcols : w.cols ≠ [])
    (hs : "sample" ∈ w.cols) :
    get_relative_frequency w = some { cols := outCols w, rows := (normRows w).map (outRow w) } := by
  simp [get_relative_frequency, hrows, hcols, hs]

theorem grfOut_eq (w : DF) (hrows : w.rows ≠ []) (hcols : w.cols ≠ [])
    (hs : "sample" ∈ w.cols) :
    grfOut w = { cols := outCols w, rows := (normRows w).map (outRow w) } := by
  simp [grfOut, grf_eq_some w hrows hcols hs]

theorem sum_map_div_mul (l : List ℚ) (t c : ℚ) :
    (l.map (fun q => q / t * c)).sum = l.sum / t * c := by
  induction l with
  | nil => simp
  | cons a tl ih => simp [ih, add_div, add_mul]

/-- The percentage-sum over the output rows of a sample reduces to a sum over
the melted rows of that sample. -/
theorem percSum_reduction (w : DF) (s : Value) (hrows : w.rows ≠ []) (hcols : w.cols ≠ [])
    (hs : "sample" ∈ w.cols) (hna : s ≠ Value.na) :
    percSum (grfOut w) s =
      (((meltRows w).filter (fun m => decide (getVal m.ids "sample" = s))).map
        (fun m => valToQ (times100 (pandasDiv m.count (totalOf w s))))).sum := by
  rw [percSum, grfOut_eq w hrows hcols hs]
  show ((((normRows w).map (outRow w)).filter _).map _).sum = _
  rw [List.filter_map, List.map_map]
  have h1 : ∀ n : NormRow,
      ((fun r => decide (getVal r "sample" = s)) ∘ outRow w) n
        = decide (getVal n.ids "sample" = s) := by
    intro n
    simp only [Function.comp_apply,
      getVal_outRow w n "sample" (sample_mem_outCols w hs), outVal_sample]
  rw [List.filter_congr (fun n _ => h1 n)]
  have h2 : ∀ n : NormRow,
      ((fun r => valToQ (getVal r "percentage")) ∘ outRow w) n = valToQ n.percentage := by
    intro n
    simp only [Function.comp_apply,
      getVal_outRow w n "percentage" (percentage_mem_outCols w), outVal_percentage]
  rw [List.map_congr_left (fun n _ => h2 n)]
  rw [normRows, List.filter_map, List.map_map]
  have h3 : ∀ m : MeltRow,
      ((fun n : NormRow => decide (getVal n.ids "sample" = s)) ∘ mkNormRow w) m
        = decide (getVal m.ids "sample" = s) := by
    intro m; simp [mkNormRow]
  rw [List.filter_congr (fun m _ => h3 m), List.filter_filter]
  have h4 : ∀ m : MeltRow,
      (decide (getVal m.ids "sample" = s) && decide (getVal m.ids "sample" ≠ Value.na))
        = decide (getVal m.ids "sample" = s) := by
    intro m
    by_cases hm : getVal m.ids "sample" = s
    · simp [hm, hna]
    · simp [hm]
  rw [List.filter_congr (fun m _ => h4 m)]
  congr 1
  apply List.map_congr_left
  intro m hm
  have hms : getVal m.ids "sample" = s := by
    have := (List.mem_filter.mp hm).2
    simpa using this
  simp [Function.comp_apply, mkNormRow, hms]

/-- C1: for a non-empty wide table whose per-sample totals are all strictly
positive, the normalizer's output percentages sum to exactly 100 within each
sample (exact equality in ℚ, hence within any tolerance, in particular 1e-6;
each percentage is `100 * count / total_count` with `total_count` the sum of
the sample's population counts). -/
theorem c1_percentages_sum_to_100 (w : DF) (s : Value)
    (hrows : w.rows ≠ []) (hcols : w.cols ≠ [])
    (hsample : "sample" ∈ w.cols)
    (hpops : ∀ p ∈ cell_populations_list, p ∈ w.cols)
    (hna : ∀ r ∈ w.rows, getVal r "sample" ≠ Value.na)
    (hpos : ∀ r ∈ w.rows, 0 < totalOf w (getVal r "sample"))
    (hocc : ∃ r ∈ w.rows, getVal r "sample" = s) :
    percSum (grfOut w) s = 100 := by
  obtain ⟨r, hr, hrs⟩ := hocc
  have hsna : s ≠ Value.na := hrs ▸ hna r hr
  have hT : 0 < totalOf w s := hrs ▸ hpos r hr
  rw [percSum_reduction w s hrows hcols hsample hsna]
  have hv : ∀ m : MeltRow,
      valToQ (times100 (pandasDiv m.count (totalOf w s))) = m.count / totalOf w s * 100 := by
    intro m
    simp [pandasDiv, hT.ne', times100, valToQ]
  rw [List.map_congr_left (fun m _ => hv m)]
  have : ((meltRows w).filter (fun m => decide (getVal m.ids "sample" = s))).map
        (fun m => m.count / totalOf w s * 100)
      = (((meltRows w).filter (fun m => decide (getVal m.ids "sample" = s))).map
        (fun m : MeltRow => m.count)).map (fun q => q / totalOf w s * 100) := by
    rw [List.map_map]; rfl
  rw [this, sum_map_div_mul]
  show totalOf w s / totalOf w s * 100 = 100
  rw [div_self hT.ne', one_mul]

/-- Witness for C1: the concrete table `wideSimple` satisfies the hypotheses and
its sample `s1` sums to 100. -/
theorem c1_percentages_sum_to_100_witness :
    (∀ r ∈ wideSimple.rows, 0 < totalOf wideSimple (getVal r "sample")) ∧
    percSum (grfOut wideSimple) (Value.str "s1") = 100 :=
  ⟨by with_unfolding_all decide,
   c1_percentages_sum_to_100 wideSimple (Value.str "s1") (by decide) (by decide) (by decide)
     (by decide) (by decide) (by with_unfolding_all decide) (by decide)⟩

theorem sum_eq_zero_of_nonneg (l : List ℚ) (h : ∀ x ∈ l, 0 ≤ x) (hz : l.sum = 0) :
    ∀ x ∈ l, x = 0 := by
  induction l with
  | nil => intro x hx; simp at hx
  | cons a t ih =>
    have ha : 0 ≤ a := h a (List.mem_cons_self a t)
    have ht : 0 ≤ t.sum := List.sum_nonneg (fun x hx => h x (List.mem_cons_of_mem a hx))
    have hsum : a + t.sum = 0 := by simpa using hz
    have ha0 : a = 0 := by linarith
    have ht0 : t.sum = 0 := by linarith
    intro x hx
    rcases List.mem_cons.mp hx with h1 | h1
    · exact h1 ▸ ha0
    · exact ih (fun y hy => h y (List.mem_cons_of_mem a hy)) ht0 x h1

/-- Membership description of the output rows: every output row is the rendered
form of a melted row whose sample id is not NaN. -/
theorem mem_grfOut_rows (w : DF) (hrows : w.rows ≠ []) (hcols : w.cols ≠ [])
    (hsample : "sample" ∈ w.cols) (r' : Row) (hr' : r' ∈ (grfOut w).rows) :
    ∃ m ∈ meltRows w, getVal m.ids "sample" ≠ Value.na ∧ r' = outRow w (mkNormRow w m) := by
  rw [grfOut_eq w hrows hcols hsample] at hr'
  obtain ⟨n, hn, hn'⟩ := List.mem_map.mp hr'
  rw [normRows] at hn
  obtain ⟨m, hm, hm'⟩ := List.mem_map.mp hn
  have hmm := List.mem_filter.mp hm
  refine ⟨m, hmm.1, by simpa using hmm.2, ?_⟩
  rw [← hn', ← hm']

/-- C5: a sample whose population counts sum to zero does not crash the
normalizer; its `percentage` cells surface as NaN, and every other sample with a
nonzero total is normalized as usual (`percentage = 100 * count / total_count`). -/
theorem c5_zero_total_gives_nan (w : DF) (s : Value)
    (hrows : w.rows ≠ []) (hcols : w.cols ≠ []) (hsample : "sample" ∈ w.cols)
    (hna : s ≠ Value.na)
    (hnonneg : ∀ m ∈ meltRows w, getVal m.ids "sample" = s → 0 ≤ m.count)
    (hzero : totalOf w s = 0) :
    (get_relative_frequency w).isSome = true ∧
    (∀ r' ∈ (grfOut w).rows, getVal r' "sample" = s →
        getVal r' "percentage" = Value.na) ∧
    (∀ t : Value, t ≠ Value.na → totalOf w t ≠ 0 →
      ∀ r' ∈ (grfOut w).rows, getVal r' "sample" = t →
        getVal r' "percentage" = Value.num (valToQ (getVal r' "count") / totalOf w t * 100)) := by
  refine ⟨by rw [grf_eq_some w hrows hcols hsample]; rfl, ?_, ?_⟩
  · intro r' hr' hrs
    obtain ⟨m, hm, hmna, hout⟩ := mem_grfOut_rows w hrows hcols hsample r' hr'
    have hsampleval : getVal m.ids "sample" = s := by
      rw [hout] at hrs
      rw [getVal_outRow w _ "sample" (sample_mem_outCols w hsample), outVal_sample] at hrs
      simpa [mkNormRow] using hrs
    have hcount : m.count = 0 := by
      apply sum_eq_zero_of_nonneg
        (((meltRows w).filter (fun m => decide (getVal m.ids "sample" = s))).map
          (fun m => m.count))
      · intro x hx
        obtain ⟨m2, hm2, hm2'⟩ := List.mem_map.mp hx
        have hm2f := List.mem_filter.mp hm2
        exact hm2' ▸ hnonneg m2 hm2f.1 (by simpa using hm2f.2)
      · exact hzero
      · exact List.mem_map.mpr ⟨m, List.mem_filter.mpr ⟨hm, by simpa using hsampleval⟩, rfl⟩
    rw [hout, getVal_outRow w _ "percentage" (percentage_mem_outCols w), outVal_percentage]
    simp [mkNormRow, hsampleval, hcount, hzero, pandasDiv, times100]
  · intro t htna htz r' hr' hrt
    obtain ⟨m, hm, hmna, hout⟩ := mem_grfOut_rows w hrows hcols hsample r' hr'
    have hsampleval : getVal m.ids "sample" = t := by
      rw [hout] at hrt
      rw [getVal_outRow w _ "sample" (sample_mem_outCols w hsample), outVal_sample] at hrt
      simpa [mkNormRow] using hrt
    have hcval : getVal (outRow w (mkNormRow w m)) "count" = Value.num m.count := by
      rw [getVal_outRow w _ "count" (count_mem_outCols w), outVal_count]
      rfl
    rw [hout, getVal_outRow w _ "percentage" (percentage_mem_outCols w), outVal_percentage, hcval]
    simp [mkNormRow, hsampleval, pandasDiv, htz, times100, valToQ]

/-- Witness for C5: in `wideZeroTotal`, sample `s1` has total 0 and NaN
percentages while sample `s2` is normalized as usual. -/
theorem c5_zero_total_gives_nan_witness :
    totalOf wideZeroTotal (Value.str "s1") = 0 ∧
    ((get_relative_frequency wideZeroTotal).isSome = true ∧
    (∀ r' ∈ (grfOut wideZeroTotal).rows, getVal r' "sample" = Value.str "s1" →
        getVal r' "percentage" = Value.na) ∧
    (∀ t : Value, t ≠ Value.na → totalOf wideZeroTotal t ≠ 0 →
      ∀ r' ∈ (grfOut wideZeroTotal).rows, getVal r' "sample" = t →
        getVal r' "percentage"
          = Value.num (valToQ (getVal r' "count") / totalOf wideZeroTotal t * 100))) :=
  ⟨by with_unfolding_all decide,
   c5_zero_total_gives_nan wideZeroTotal (Value.str "s1") (by decide) (by decide) (by decide)
     (by decide) (by with_unfolding_all decide) (by with_unfolding_all decide)⟩

theorem outVal_other (n : NormRow) (c : String) (h1 : c ≠ "population") (h2 : c ≠ "count")
    (h3 : c ≠ "total_count") (h4 : c ≠ "percentage") (h5 : c ≠ "response") :
    outVal n c = getVal n.ids c := by
  simp [outVal, h1, h2, h3, h4, h5]

theorem mem_meltRows (w : DF) (m : MeltRow) (hm : m ∈ meltRows w) :
    ∃ p ∈ valueVars w, ∃ r ∈ w.rows,
      m = { ids := idRow w r, population := p, count := coerceNum (getVal r p) } := by
  rw [meltRows] at hm
  obtain ⟨p, hp, hm2⟩ := List.mem_flatMap.mp hm
  obtain ⟨r, hr, hr2⟩ := List.mem_map.mp hm2
  exact ⟨p, hp, r, hr, hr2.symm⟩

/-- Counterexample for C3: the wide table `wideExtraCol` carries the extra
metadata column `extra_meta`, yet the normalizer's output does not contain that
column at all — the final column selection drops everything outside the fixed
list, so unrecognized extra columns are *not* preserved. -/
theorem c3_counterexample :
    "extra_meta" ∈ wideExtraCol.cols ∧
    "extra_meta" ∉ cell_populations_list ∧
    Option.map DF.cols (get_relative_frequency wideExtraCol)
      = some ["sample", "total_count", "population", "count", "percentage"] := by
  with_unfolding_all decide

/-- C3 (amended): the output keeps only columns of the fixed required list
(unrecognized extra input columns are dropped by the final selection), and every
input metadata column *inside* that list — other than `response`, which is
normalized — is carried unchanged from its source wide row into each
corresponding output row. -/
theorem c3_fixed_columns_carried (w : DF)
    (hrows : w.rows ≠ []) (hcols : w.cols ≠ []) (hsample : "sample" ∈ w.cols)
    (hres : ∀ c ∈ w.cols,
      c ∉ (["population", "count", "total_count", "percentage"] : List String)) :
    (∀ c ∈ (grfOut w).cols, c ∈ required_cols_order) ∧
    (∀ r' ∈ (grfOut w).rows, ∃ r ∈ w.rows,
      ∀ c ∈ w.cols, c ∉ cell_populations_list → c ∈ required_cols_order → c ≠ "response" →
        getVal r' c = getVal r c) := by
  constructor
  · intro c hc
    rw [grfOut_eq w hrows hcols hsample] at hc
    exact ((mem_outCols w c).mp hc).1
  · intro r' hr'
    obtain ⟨m, hm, hmna, hout⟩ := mem_grfOut_rows w hrows hcols hsample r' hr'
    obtain ⟨p, hp, r, hr, hmr⟩ := mem_meltRows w m hm
    refine ⟨r, hr, ?_⟩
    intro c hc hcpop hcreq hcresp
    have hcid : c ∈ idVars w := (mem_idVars w c).mpr ⟨hc, hcpop⟩
    have hcout : c ∈ outCols w :=
      (mem_outCols w c).mpr ⟨hcreq, (mem_longCols w c).mpr (Or.inl hcid)⟩
    have hcres := hres c hc
    have h1 : c ≠ "population" := by intro h; subst h; simp at hcres
    have h2 : c ≠ "count" := by intro h; subst h; simp at hcres
    have h3 : c ≠ "total_count" := by intro h; subst h; simp at hcres
    have h4 : c ≠ "percentage" := by intro h; subst h; simp at hcres
    rw [hout, getVal_outRow w _ c hcout, outVal_other _ c h1 h2 h3 h4 hcresp]
    show getVal m.ids c = getVal r c
    rw [hmr]
    exact getVal_idRow w r c hcid

/-- Witness for C3 (amended): the concrete table `wideExtraCol` satisfies the
hypotheses, its `sample` metadata is carried, and its output columns all come
from the fixed list. -/
theorem c3_fixed_columns_carried_witness :
    ("sample" ∈ wideExtraCol.cols) ∧
    ((∀ c ∈ (grfOut wideExtraCol).cols, c ∈ required_cols_order) ∧
    (∀ r' ∈ (grfOut wideExtraCol).rows, ∃ r ∈ wideExtraCol.rows,
      ∀ c ∈ wideExtraCol.cols,
        c ∉ cell_populations_list → c ∈ required_cols_order → c ≠ "response" →
          getVal r' c = getVal r c)) :=
  ⟨by decide,
   c3_fixed_columns_carried wideExtraCol (by decide) (by decide) (by decide) (by decide)⟩

/-- Counterexample for C6: the wide table `wideMissingPop` lacks the required
population-count column `monocyte`, yet the normalizer succeeds (no descriptive
error is raised) — the melt silently omits the absent column. -/
theorem c6_counterexample :
    "monocyte" ∈ cell_populations_list ∧
    "monocyte" ∉ wideMissingPop.cols ∧
    (get_relative_frequency wideMissingPop).isSome = true := by
  with_unfolding_all decide

/-- C6 (amended): the normalizer fails fast only when the sample-identifier
column is absent (the `groupby('sample')` raises `KeyError`); an absent
population-count column raises no error — the output simply contains no rows
for that population, its contribution silently omitted. -/
theorem c6_fail_only_for_missing_sample_column (w : DF)
    (hrows : w.rows ≠ []) (hcols : w.cols ≠ []) :
    (get_relative_frequency w = none ↔ "sample" ∉ w.cols) ∧
    (∀ p ∈ cell_populations_list, p ∉ w.cols →
      ∀ r' ∈ (grfOut w).rows, getVal r' "population" ≠ Value.str p) := by
  constructor
  · by_cases hs : "sample" ∈ w.cols <;> simp [get_relative_frequency, hrows, hcols, hs]
  · intro p hp hpnot r' hr'
    by_cases hs : "sample" ∈ w.cols
    · obtain ⟨m, hm, hmna, hout⟩ := mem_grfOut_rows w hrows hcols hs r' hr'
      obtain ⟨p2, hp2, r, hr, hmr⟩ := mem_meltRows w m hm
      have hpcols : m.population ∈ w.cols := by
        rw [hmr]
        exact ((mem_valueVars w p2).mp hp2).1
      have hpop : getVal r' "population" = Value.str m.population := by
        rw [hout, getVal_outRow w _ "population" (population_mem_outCols w), outVal_population]
        rfl
      rw [hpop]
      intro hcontr
      apply hpnot
      have : m.population = p := by injection hcontr
      exact this ▸ hpcols
    · have : get_relative_frequency w = none := by
        simp [get_relative_frequency, hrows, hcols, hs]
      rw [grfOut, this] at hr'
      simp [DF.empty, Option.getD] at hr'

/-- Witness for C6 (amended): on `wideMissingPop` the normalizer does not fail,
and no output row carries the absent population `monocyte`. -/
theorem c6_fail_only_for_missing_sample_column_witness :
    ((get_relative_frequency wideMissingPop = none ↔ "sample" ∉ wideMissingPop.cols) ∧
    (∀ p ∈ cell_populations_list, p ∉ wideMissingPop.cols →
      ∀ r' ∈ (grfOut wideMissingPop).rows, getVal r' "population" ≠ Value.str p)) :=
  c6_fail_only_for_missing_sample_column wideMissingPop (by decide) (by decide)

theorem mannwhitneyu_perm (x x' y y' : List ℚ) (hx : x.Perm x') (hy : y.Perm y') :
    mannwhitneyuStat x y = mannwhitneyuStat x' y' ∧
    mannwhitneyuPValue x y = mannwhitneyuPValue x' y' := by
  have hxm : (x : Multiset ℚ) = (x' : Multiset ℚ) := Multiset.coe_eq_coe.mpr hx
  have hym : (y : Multiset ℚ) = (y' : Multiset ℚ) := Multiset.coe_eq_coe.mpr hy
  have hxl : x.length = x'.length := hx.length_eq
  constructor
  · unfold mannwhitneyuStat
    rw [hxm, hym, hxl]
  · unfold mannwhitneyuPValue mannwhitneyuStat
    rw [hxm, hym, hxl]

theorem runTest_perm (x x' y y' : List ℚ) (hx : x.Perm x') (hy : y.Perm y') :
    runTest x y = runTest x' y' := by
  obtain ⟨hs, hp⟩ := mannwhitneyu_perm x x' y y' hx hy
  unfold runTest
  rw [hx.length_eq, hy.length_eq, hs, hp]

theorem responderValues_perm (df df' : DF) (h : df.rows.Perm df'.rows) (pop : String) :
    (responderValues df pop).Perm (responderValues df' pop) := by
  unfold responderValues responders cohortRows
  exact (((h.filter _).filter _).filter _).filterMap _

theorem nonResponderValues_perm (df df' : DF) (h : df.rows.Perm df'.rows) (pop : String) :
    (nonResponderValues df pop).Perm (nonResponderValues df' pop) := by
  unfold nonResponderValues non_responders cohortRows
  exact (((h.filter _).filter _).filter _).filterMap _

/-- C8: `analyze_melanoma_tr1_response` is invariant under row-order permutation
of the input long table — the statistic, p-value and significance flag of every
population are unchanged (the whole per-population result mapping is equal). -/
theorem c8_results_permutation_invariant (df df' : DF) (h : df.rows.Perm df'.rows) :
    (analyze_melanoma_tr1_response df).2 = (analyze_melanoma_tr1_response df').2 := by
  have hc : (cohortRows df).Perm (cohortRows df') := h.filter _
  by_cases he : cohortRows df = []
  · have he' : cohortRows df' = [] := by
      rw [he] at hc
      exact hc.symm.eq_nil
    simp [analyze_melanoma_tr1_response, he, he']
  · have he' : cohortRows df' ≠ [] := by
      intro h0
      rw [h0] at hc
      exact he hc.eq_nil
    simp only [analyze_melanoma_tr1_response, if_neg he, if_neg he']
    apply List.map_congr_left
    intro pop _
    rw [runTest_perm _ _ _ _ (responderValues_perm df df' h pop)
      (nonResponderValues_perm df df' h pop)]

/-- Witness for C8: the concrete tables `longPermA` and `longPermB` are row
permutations of each other and produce identical statistical results. -/
theorem c8_results_permutation_invariant_witness :
    longPermA.rows.Perm longPermB.rows ∧
    (analyze_melanoma_tr1_response longPermA).2 = (analyze_melanoma_tr1_response longPermB).2 :=
  ⟨by decide, c8_results_permutation_invariant longPermA longPermB (by decide)⟩

/-- C9: when the melanoma/tr1/PBMC/response cohort filter matches no row of the
long table, `analyze_melanoma_tr1_response` returns the empty frame and the
empty result dict without raising. -/
theorem c9_empty_cohort_no_error (df : DF)
    (hcond : "condition" ∈ df.cols) (htreat : "treatment" ∈ df.cols)
    (hst : "sample_type" ∈ df.cols) (hresp : "response" ∈ df.cols)
    (hzero : ∀ r ∈ df.rows, cohortMask r = false) :
    analyze_melanoma_tr1_response df = (DF.empty, []) := by
  have hnil : cohortRows df = [] := by
    rw [cohortRows, List.filter_eq_nil_iff]
    intro a ha
    simp [hzero a ha]
  simp [analyze_melanoma_tr1_response, hnil]

/-- Witness for C9: `longNoCohort` has the filter columns, no matching row, and
the comparator returns the empty pair on it. -/
theorem c9_empty_cohort_no_error_witness :
    (∀ r ∈ longNoCohort.rows, cohortMask r = false) ∧
    analyze_melanoma_tr1_response longNoCohort = (DF.empty, []) :=
  ⟨by decide,
   c9_empty_cohort_no_error longNoCohort (by decide) (by decide) (by decide) (by decide)
     (by decide)⟩

/-- Counterexample for C2: on `longNoCohort` the responder group of `b_cell`
has fewer than 2 observations, yet no insufficient-data marker is recorded for
`b_cell` — the result dict is empty because the cohort filter matched no row. -/
theorem c2_counterexample :
    (responderValues longNoCohort "b_cell").length < 2 ∧
    (analyze_melanoma_tr1_response longNoCohort).2 = [] ∧
    ((analyze_melanoma_tr1_response longNoCohort).2.lookup "b_cell") = none := by
  decide

/-- C2 (amended): provided the cohort filter matches at least one row, a
population for which either group has fewer than 2 percentage observations gets
the explicit insufficient-data marker (`statistic = None`, `p_value = None`,
`significant = False`) instead of a test, no error is raised, and all five
populations are still processed.  (When the filter matches no row the comparator
returns an empty result dict with no markers — see C9.) -/
theorem c2_insufficient_data_marker (df : DF) (pop : String)
    (hpop : pop ∈ cell_populations_list)
    (hne : cohortRows df ≠ [])
    (hfew : (responderValues df pop).length < 2 ∨ (nonResponderValues df pop).length < 2) :
    ((analyze_melanoma_tr1_response df).2.lookup pop)
        = some { statistic := none, p_value := none, significant := false } ∧
    (analyze_melanoma_tr1_response df).2.map Prod.fst = cell_populations_list := by
  have hguard : ¬(1 < (responderValues df pop).length ∧
      1 < (nonResponderValues df pop).length) := by
    rcases hfew with h | h
    · intro hcon; omega
    · intro hcon; omega
  constructor
  · simp only [analyze_melanoma_tr1_response, if_neg hne]
    rw [lookup_map_self
      (fun p => runTest (responderValues df p) (nonResponderValues df p))
      cell_populations_list pop hpop]
    rw [runTest, if_neg hguard]
  · simp only [analyze_melanoma_tr1_response, if_neg hne]
    rfl

/-- Witness for C2 (amended): `longMarker` has one cohort row; every group has
at most one observation, and `b_cell` receives the marker while all five
populations appear in the result dict. -/
theorem c2_insufficient_data_marker_witness :
    (cohortRows longMarker ≠ [] ∧ (responderValues longMarker "b_cell").length < 2) ∧
    (((analyze_melanoma_tr1_response longMarker).2.lookup "b_cell")
        = some { statistic := none, p_value := none, significant := false } ∧
    (analyze_melanoma_tr1_response longMarker).2.map Prod.fst = cell_populations_list) :=
  ⟨⟨by decide, by decide⟩,
   c2_insufficient_data_marker longMarker "b_cell" (by decide) (by decide)
     (Or.inl (by decide))⟩

theorem find?_filter_of_imp {α : Type} (p q : α → Bool) (l : List α)
    (h : ∀ x, p x = true → q x = true) :
    (l.filter q).find? p = l.find? p := by
  induction l with
  | nil => rfl
  | cons a t ih =>
    by_cases hq : q a = true
    · rw [List.filter_cons_of_pos hq]
      by_cases hp : p a = true
      · rw [List.find?_cons_of_pos _ hp, List.find?_cons_of_pos _ hp]
      · rw [List.find?_cons_of_neg _ hp, List.find?_cons_of_neg _ hp, ih]
    · have hp : ¬ p a = true := fun hpa => hq (h a hpa)
      rw [List.filter_cons_of_neg (by simpa using hq), List.find?_cons_of_neg _ hp, ih]

theorem distinctSubjectsSeen_not_seen :
    ∀ (l : List Row) (seen : List Value) (s : Value),
      s ∈ distinctSubjectsSeen seen l → s ∉ seen := by
  intro l
  induction l with
  | nil => intro seen s h; simp [distinctSubjectsSeen] at h
  | cons r rest ih =>
    intro seen s h
    simp only [distinctSubjectsSeen] at h
    by_cases hr : getVal r "subject" ∈ seen
    · rw [if_pos hr] at h
      exact ih seen s h
    · rw [if_neg hr] at h
      rcases List.mem_cons.mp h with h1 | h1
      · exact h1 ▸ hr
      · have h2 := ih _ s h1
        intro hs
        exact h2 (List.mem_cons_of_mem _ hs)

/-- The deduplicated rows, counted through any row property, agree with counting
each distinct subject once through the property of its first row. -/
theorem dropDup_filter_length (φ : Row → Bool) :
    ∀ (l : List Row) (seen : List Value),
      ((dropDupSubjectSeen seen l).filter φ).length =
      ((distinctSubjectsSeen seen l).filter
        (fun s => ((l.find? (fun r => decide (getVal r "subject" = s))).map φ).getD false)).length := by
  intro l
  induction l with
  | nil => intro seen; rfl
  | cons r rest ih =>
    intro seen
    by_cases hseen : getVal r "subject" ∈ seen
    · simp only [dropDupSubjectSeen, distinctSubjectsSeen, if_pos hseen]
      rw [ih seen]
      congr 1
      apply List.filter_congr
      intro s hs
      have hns : s ∉ seen := distinctSubjectsSeen_not_seen rest seen s hs
      have hne : getVal r "subject" ≠ s := fun h => hns (h ▸ hseen)
      rw [List.find?_cons_of_neg _ (by simpa using hne)]
    · simp only [dropDupSubjectSeen, distinctSubjectsSeen, if_neg hseen]
      have hhead :
          ((((r :: rest).find?
              (fun r2 => decide (getVal r2 "subject" = getVal r "subject"))).map φ).getD false)
            = φ r := by
        rw [List.find?_cons_of_pos _ (by simp)]
        rfl
      have htail : ∀ s ∈ distinctSubjectsSeen (getVal r "subject" :: seen) rest,
          (((rest.find? (fun r2 => decide (getVal r2 "subject" = s))).map φ).getD false)
            = ((((r :: rest).find? (fun r2 => decide (getVal r2 "subject" = s))).map φ).getD false) := by
        intro s hs
        have hns := distinctSubjectsSeen_not_seen rest _ s hs
        have hne : getVal r "subject" ≠ s := fun h => hns (h ▸ List.mem_cons_self _ _)
        rw [List.find?_cons_of_neg _ (by simpa using hne)]
      by_cases hφ : φ r = true
      · rw [List.filter_cons_of_pos (by simpa using hφ),
          List.filter_cons_of_pos (by simp [hhead, hφ])]
        simp only [List.length_cons]
        rw [ih (getVal r "subject" :: seen)]
        have hlen := congrArg List.length (List.filter_congr htail)
        omega
      · rw [List.filter_cons_of_neg (by simpa using hφ),
          List.filter_cons_of_neg (by simp [hhead, hφ])]
        rw [ih (getVal r "subject" :: seen)]
        exact congrArg List.length (List.filter_congr htail)

theorem sexTally_eq_first (df : DF) (v : Value) : sexTally df v = sexCountFirst df v := by
  by_cases h : baselineRows df = []
  · simp [sexTally, query_baseline_melanoma_tr1_samples, h, sexCountFirst, countSubjectsFirst,
      distinctSubjects, distinctSubjectsSeen]
  · simp only [sexTally, query_baseline_melanoma_tr1_samples, if_neg h, mkAgg]
    rw [List.countP_map, List.countP_eq_length_filter]
    rw [unique_subjects_baseline, dropDup_filter_length]
    rfl

theorem respTally_eq_first (df : DF) (v : Value) : respTally df v = respCountFirst df v := by
  by_cases h : baselineRows df = []
  · simp [respTally, query_baseline_melanoma_tr1_samples, h, respCountFirst, countSubjectsFirst,
      distinctSubjects, distinctSubjectsSeen]
  · simp only [respTally, query_baseline_melanoma_tr1_samples, if_neg h, mkAgg]
    rw [List.countP_map, List.countP_eq_length_filter, List.filter_filter]
    rw [unique_subjects_baseline, dropDup_filter_length]
    rfl

theorem two_le_length_of_two_mem {α : Type} (l : List α) (a b : α)
    (ha : a ∈ l) (hb : b ∈ l) (hab : a ≠ b) : 2 ≤ l.length := by
  match l with
  | [] => simp at ha
  | [x] =>
    simp only [List.mem_singleton] at ha hb
    exact absurd (ha.trans hb.symm) hab
  | x :: y :: t => simp only [List.length_cons]; omega

/-- Counterexample for C4: on `wideNoBaseline` the baseline filter matches no
row, and the aggregator returns the *empty* aggregate dict — it contains no
tally tables at all (in particular not three empty ones). -/
theorem c4_counterexample :
    (query_baseline_melanoma_tr1_samples wideNoBaseline).2 = none ∧
    ((query_baseline_melanoma_tr1_samples wideNoBaseline).2).isSome = false := by
  constructor <;> rfl

/-- C4 (amended): a wide table whose baseline filter (melanoma, tr1, PBMC,
`time_from_treatment_start == 0`) matches zero rows makes the aggregator return
the empty frame together with the empty aggregate dict (no tally tables), and
no error is raised. -/
theorem c4_empty_baseline_returns_empty_dict (df : DF)
    (hcond : "condition" ∈ df.cols) (hst : "sample_type" ∈ df.cols)
    (htime : "time_from_treatment_start" ∈ df.cols) (htreat : "treatment" ∈ df.cols)
    (hzero : ∀ r ∈ df.rows, baselineMask r = false) :
    query_baseline_melanoma_tr1_samples df = (DF.empty, none) := by
  have hnil : baselineRows df = [] := by
    rw [baselineRows, List.filter_eq_nil_iff]
    intro a ha
    simp [hzero a ha]
  simp [query_baseline_melanoma_tr1_samples, hnil]

/-- Witness for C4 (amended): `wideNoBaseline` has the filter columns, no
matching row, and the aggregator returns the empty pair on it. -/
theorem c4_empty_baseline_returns_empty_dict_witness :
    (∀ r ∈ wideNoBaseline.rows, baselineMask r = false) ∧
    query_baseline_melanoma_tr1_samples wideNoBaseline = (DF.empty, none) :=
  ⟨by decide,
   c4_empty_baseline_returns_empty_dict wideNoBaseline (by decide) (by decide) (by decide)
     (by decide) (by decide)⟩

/-- C7: the aggregator deduplicates subjects before the subject-level tallies:
when one subject contributes two baseline samples (distinct sample ids, same
project), `samples_per_project` counts both samples, while the response and sex
tallies count each distinct subject exactly once — each equals the count of
distinct subjects whose *first* baseline row carries the tallied value. -/
theorem c7_subject_dedup (df : DF) (r1 r2 : Row) (p : Value)
    (h1 : r1 ∈ baselineRows df) (h2 : r2 ∈ baselineRows df)
    (hsub : getVal r1 "subject" = getVal r2 "subject")
    (hsamp : getVal r1 "sample" ≠ getVal r2 "sample")
    (hp1 : getVal r1 "project" = p) (hp2 : getVal r2 "project" = p) :
    2 ≤ samplesTally df p ∧
    (∀ v, sexTally df v = sexCountFirst df v) ∧
    (∀ v, respTally df v = respCountFirst df v) := by
  refine ⟨?_, fun v => sexTally_eq_first df v, fun v => respTally_eq_first df v⟩
  have hne : baselineRows df ≠ [] := List.ne_nil_of_mem h1
  simp only [samplesTally, query_baseline_melanoma_tr1_samples, if_neg hne, mkAgg]
  apply two_le_length_of_two_mem _ (getVal r1 "sample") (getVal r2 "sample") _ _ hsamp
  · exact List.mem_dedup.mpr (List.mem_map.mpr
      ⟨r1, List.mem_filter.mpr ⟨h1, by simp [hp1]⟩, rfl⟩)
  · exact List.mem_dedup.mpr (List.mem_map.mpr
      ⟨r2, List.mem_filter.mpr ⟨h2, by simp [hp2]⟩, rfl⟩)

/-- Witness for C7: in `wideDupSubject` the subject `subj1` contributes the two
baseline samples `sA` and `sB` of project `P1`; the project tally counts both
while the subject tallies count `subj1` once. -/
theorem c7_subject_dedup_witness :
    (dupRow1 ∈ baselineRows wideDupSubject ∧ dupRow2 ∈ baselineRows wideDupSubject ∧
      getVal dupRow1 "subject" = getVal dupRow2 "subject" ∧
      getVal dupRow1 "sample" ≠ getVal dupRow2 "sample") ∧
    (2 ≤ samplesTally wideDupSubject (Value.str "P1") ∧
    (∀ v, sexTally wideDupSubject v = sexCountFirst wideDupSubject v) ∧
    (∀ v, respTally wideDupSubject v = respCountFirst wideDupSubject v)) :=
  ⟨⟨by decide, by decide, by decide, by decide⟩,
   c7_subject_dedup wideDupSubject dupRow1 dupRow2 (Value.str "P1") (by decide) (by decide)
     (by decide) (by decide) (by decide) (by decide)⟩

/-- C10: subject deduplication keeps the first baseline row in input order, so
the subject tallies attribute each subject to its first row's response and sex
(the general first-row recount equalities), and they are not invariant under
row permutation: `baseDupA` and `baseDupB` hold the same rows in opposite
orders, and the sex and response tallies differ between them. -/
theorem c10_first_row_attribution :
    (∀ (df : DF) (v : Value), sexTally df v = sexCountFirst df v) ∧
    (∀ (df : DF) (v : Value), respTally df v = respCountFirst df v) ∧
    baseDupB.rows.Perm baseDupA.rows ∧
    sexTally baseDupA (Value.str "M") = 1 ∧ sexTally baseDupA (Value.str "F") = 0 ∧
    sexTally baseDupB (Value.str "F") = 1 ∧ sexTally baseDupB (Value.str "M") = 0 ∧
    respTally baseDupA (Value.str "y") = 1 ∧ respTally baseDupA (Value.str "n") = 0 ∧
    respTally baseDupB (Value.str "n") = 1 ∧ respTally baseDupB (Value.str "y") = 0 :=
  ⟨sexTally_eq_first, respTally_eq_first, by decide, by decide, by decide, by decide,
   by decide, by decide, by decide, by decide, by decide⟩
